import Mathlib

/-!
DingTalk notifier: a shallow embedding of `Notify` from
`notify/dingtalk/dingtalk.go`.

`Notify` is a straight-line function with early returns.  Everything it calls
lives outside the file (the `notify` helpers, `net/http`, `io/ioutil`,
`encoding/json`, `fmt`, `errors`).  The calls whose outcome depends on the world
(the template engine, the transport, the envelope parser, the redaction) are
parameters of the embedding: each one is a function from its arguments to its
outcome.  The side effects of one call (the HTTP request handed to the client,
the debug log line, the deferred drain of the response) are recorded, in order,
in a trace.

Two of the early returns cannot be taken.  Line 64 hands `notify.TmplText` the
template set, the data and the address of `err`, but no template name: what
comes back is the rendering function, which `Notify` binds to `tmpl` and never
calls, so `err` is still nil when line 65 tests it.  And `http.NewRequest`
accepts the constant method and URL of line 70, so `err` is nil at line 71.
Both branches are kept in `Notify` as the source has them.
-/

namespace Dingtalk

/-! ## Data model -/

/-- A non-nil Go `error`, identified by the text of its `Error()` method.
The nil error is `none` in `Option GoError`. -/
structure GoError where
  text : String
deriving DecidableEq

/-- The response envelope, `type dingResponse struct` (source lines 43-46). -/
structure dingResponse where
  Code : Int
  Error : String
deriving DecidableEq

/-- An `io.ReadCloser` (the type of `resp.Body`), identified by what reading it
to the end delivers: all of its bytes, or a read error. -/
inductive ReadCloser where
  | bytes (content : String)
  | broken (err : GoError)
deriving DecidableEq

/-- The part of `*http.Response` the notifier looks at. -/
structure Response where
  StatusCode : Int
  Body : ReadCloser
deriving DecidableEq

/-- The part of `*http.Request` that `http.NewRequest` and `WithContext` set:
method, URL, payload and the attached context (none until `WithContext`). -/
structure Request (Ctx : Type) where
  Method : String
  URL : String
  Body : String
  ctx : Option Ctx
deriving DecidableEq

/-- The method `req.WithContext(ctx)`: the same request carrying `ctx`. -/
def Request.WithContext {Ctx : Type} (req : Request Ctx) (ctx : Ctx) : Request Ctx :=
  { req with ctx := some ctx }

/-- The field `client *http.Client`: its method `Do` maps the request it is
handed to a response or to a transport error. -/
structure Client (Ctx : Type) where
  Do : Request Ctx → Except GoError Response

/-- The record `type Notifier struct` (source lines 34-41). -/
structure Notifier (Config Template Logger Ctx : Type) where
  conf : Config
  tmpl : Template
  logger : Logger
  client : Client Ctx
  accessToken : String

/-- The constant `http.MethodPost`. -/
def MethodPost : String := "POST"

/-- The local `postMessageUrl` (source line 69). -/
def postMessageUrl : String := "https://oapi.dingtalk.com/robot/send"

/-- The functions `Notify` depends on that are declared outside the file.

* `GetTemplateData` and `RedactURL` belong to package `notify`; `RedactURL`
  maps a non-nil error to the sanitized non-nil error.
* `ExecuteTextString tmpl name data` is the template engine: it executes the
  template called `name` and yields the rendered text and an error (none for
  nil).  Only the function `notify.TmplText` returns ever calls it.
* `NewRequestErr method url` is the error `http.NewRequest` reports for a
  method and URL it rejects (none when it accepts them);
  `NewRequestErr_fixed` records that it accepts `POST` and the fixed endpoint.
* `Unmarshal body` is `json.Unmarshal(body, &dingResp)`: the envelope written
  into the zero-initialised `dingResp`, or the parse error. -/
structure Deps (Ctx Template Logger Alert Data : Type) where
  GetTemplateData : Ctx → Template → List Alert → Logger → Data
  ExecuteTextString : Template → String → Data → String × Option GoError
  NewRequestErr : String → String → Option GoError
  NewRequestErr_fixed : NewRequestErr MethodPost postMessageUrl = none
  RedactURL : GoError → GoError
  Unmarshal : String → Except GoError dingResponse

/-- One observable side effect of a `Notify` call. -/
inductive Event (Ctx : Type) where
  /-- The call `n.client.Do(req)`: an outbound HTTP request. -/
  | request (req : Request Ctx)
  /-- The call `level.Debug(n.logger).Log(key, value)`. -/
  | log (key value : String)
  /-- The call `notify.Drain(resp)`: the body is read to its end and closed. -/
  | drain (resp : Response)
deriving DecidableEq

/-- What one `Notify` call yields: the two returned values and the side
effects in the order they happened. -/
structure Run (Ctx : Type) where
  retryable : Bool
  err : Option GoError
  trace : List (Event Ctx)
deriving DecidableEq

/-! ## Library calls with a fixed meaning -/

/-- The call `http.NewRequest(method, url, body)`: fails with the error the
library reports for this method and URL, otherwise a request with exactly the
given method, URL and payload and no context yet. -/
def NewRequest {Ctx Template Logger Alert Data : Type}
    (d : Deps Ctx Template Logger Alert Data) (method url body : String) :
    Except GoError (Request Ctx) :=
  match d.NewRequestErr method url with
  | some err => .error err
  | none => .ok { Method := method, URL := url, Body := body, ctx := none }

/-- The call `ioutil.ReadAll(resp.Body)`. -/
def ReadAll : ReadCloser → Except GoError String
  | .bytes content => .ok content
  | .broken err => .error err

/-- The call `fmt.Errorf("response status code %v", code)`; `%v` prints an
`int` in decimal, with a leading minus sign when negative. -/
def statusCodeError (code : Int) : GoError :=
  ⟨"response status code " ++ toString code⟩

/-- The call `errors.New(text)`: a non-nil error with that text, also when the
text is empty. -/
def errorsNew (text : String) : GoError := ⟨text⟩

/-- The call `notify.TmplText(tmpl, data, &err)`: it executes nothing and
leaves `err` alone; it returns the rendering function.  That function takes a
template name and the present content of `err`, and yields the text and the new
content of `err`: with an error already there it does nothing, otherwise it
executes the named template and stores the error of that. -/
def TmplText {Ctx Template Logger Alert Data : Type}
    (d : Deps Ctx Template Logger Alert Data) (tmpl : Template) (data : Data) :
    String → Option GoError → String × Option GoError :=
  fun name err =>
    match err with
    | some e => ("", some e)
    | none => d.ExecuteTextString tmpl name data

/-! ## `Notify` -/

/-- Source lines 60-64: the locals `tmpl` and `err` when line 65 is reached.
Line 60 declares `err` nil, line 62 builds the template data and line 64 binds
the rendering function to `tmpl`; nothing on these lines calls it. -/
def renderStep {Config Template Logger Ctx Alert Data : Type}
    (d : Deps Ctx Template Logger Alert Data)
    (n : Notifier Config Template Logger Ctx) (ctx : Ctx) (as : List Alert) :
    (String → Option GoError → String × Option GoError) × Option GoError :=
  let err : Option GoError := none
  let data := d.GetTemplateData ctx n.tmpl as n.logger
  let tmpl := TmplText d n.tmpl data
  (tmpl, err)

/-- Source lines 81-100: what `Notify` does once the transport has returned
`resp`, without the deferred drain.  Line 96 reads `dingResp == 0`; the only
integer in the envelope is `Code`, and that is the field compared here. -/
def classify {Ctx : Type} {Template Logger Alert Data : Type}
    (d : Deps Ctx Template Logger Alert Data) (resp : Response) : Run Ctx :=
  if resp.StatusCode ≠ 200 then
    ⟨true, some (statusCodeError resp.StatusCode), []⟩
  else
    match ReadAll resp.Body with
    | .error err => ⟨true, some err, []⟩
    | .ok body =>
      match d.Unmarshal body with
      | .error err => ⟨true, some err, [Event.log "response" body]⟩
      | .ok dingResp =>
        if dingResp.Code = 0 then
          ⟨false, none, [Event.log "response" body]⟩
        else
          ⟨false, some (errorsNew dingResp.Error), [Event.log "response" body]⟩

/-- The method `(n *Notifier) Notify(ctx, as...)` (source lines 59-101).
After line 64 the function bound to `tmpl` is not used again, and the payload
of the request is the literal of line 70.  The `defer notify.Drain(resp)` of
line 79 runs when the function returns, so its event closes the trace of every
path that got a response. -/
def Notify {Config Template Logger Ctx Alert Data : Type}
    (d : Deps Ctx Template Logger Alert Data)
    (n : Notifier Config Template Logger Ctx) (ctx : Ctx) (as : List Alert) : Run Ctx :=
  match (renderStep d n ctx as).2 with
  | some err => ⟨false, some err, []⟩
  | none =>
    match NewRequest d MethodPost postMessageUrl "" with
    | .error err => ⟨true, some err, []⟩
    | .ok req =>
      match n.client.Do (req.WithContext ctx) with
      | .error err => ⟨true, some (d.RedactURL err), [Event.request (req.WithContext ctx)]⟩
      | .ok resp =>
        let r := classify d resp
        { r with trace := Event.request (req.WithContext ctx) :: r.trace ++ [Event.drain resp] }

/-! ## Reading a trace -/

/-- The outbound HTTP requests of a trace, in order. -/
def requests {Ctx : Type} : List (Event Ctx) → List (Request Ctx)
  | [] => []
  | Event.request req :: rest => req :: requests rest
  | _ :: rest => requests rest

/-- The responses drained in a trace, in order. -/
def drains {Ctx : Type} : List (Event Ctx) → List Response
  | [] => []
  | Event.drain resp :: rest => resp :: drains rest
  | _ :: rest => drains rest

/-- The call got past the rendering guard: `err` is still nil at source line
65.  This is so on every call, whatever the template engine would do. -/
abbrev Rendered {Config Template Logger Ctx Alert Data : Type}
    (d : Deps Ctx Template Logger Alert Data)
    (n : Notifier Config Template Logger Ctx) (ctx : Ctx) (as : List Alert) : Prop :=
  (renderStep d n ctx as).2 = none

/-- The outcome of the transport for the request `Notify` builds at source
lines 70 and 75. -/
abbrev transport {Config Template Logger Ctx Alert Data : Type}
    (d : Deps Ctx Template Logger Alert Data)
    (n : Notifier Config Template Logger Ctx) (ctx : Ctx) : Option (Except GoError Response) :=
  match NewRequest d MethodPost postMessageUrl "" with
  | .error _ => none
  | .ok req => some (n.client.Do (req.WithContext ctx))

/-! ## Sample collaborators -/

/-- A stand-in for the envelope parser: it knows three bodies and rejects the
rest. -/
def sampleUnmarshal (body : String) : Except GoError dingResponse :=
  if body = "ok" then .ok ⟨0, "ok"⟩
  else if body = "token invalid" then .ok ⟨1, "token invalid"⟩
  else if body = "silent" then .ok ⟨310000, ""⟩
  else .error ⟨"invalid character"⟩

/-- A stand-in for the URL redaction: every transport error becomes the same
sanitized text. -/
def sampleRedactURL (_ : GoError) : GoError := ⟨"Post <redacted>: connection refused"⟩

/-- Sample collaborators: every template renders the number of alerts, or,
when `tmplErr` is given, every template fails with it. -/
def sampleDeps (tmplErr : Option GoError) : Deps Unit Unit Unit String Nat where
  GetTemplateData := fun _ _ as _ => as.length
  ExecuteTextString := fun _ _ data =>
    match tmplErr with
    | none => ("[FIRING:" ++ toString data ++ "]", none)
    | some e => ("", some e)
  NewRequestErr := fun _ _ => none
  NewRequestErr_fixed := rfl
  RedactURL := sampleRedactURL
  Unmarshal := sampleUnmarshal

/-- A notifier whose transport answers every request with `answer`. -/
def sampleNotifier (answer : Except GoError Response) : Notifier Unit Unit Unit Unit where
  conf := ()
  tmpl := ()
  logger := ()
  client := ⟨fun _ => answer⟩
  accessToken := ""

/-! ## Shared lemmas -/

section Lemmas

variable {Config Template Logger Ctx Alert Data : Type}

/-- Nothing writes `err` before line 65 tests it. -/
lemma rendered (d : Deps Ctx Template Logger Alert Data)
    (n : Notifier Config Template Logger Ctx) (ctx : Ctx) (as : List Alert) :
    Rendered d n ctx as := rfl

/-- The request line 70 builds: the POST to the fixed endpoint with the payload
it is given. -/
lemma NewRequest_fixed (d : Deps Ctx Template Logger Alert Data) (body : String) :
    (NewRequest d MethodPost postMessageUrl body : Except GoError (Request Ctx))
      = .ok { Method := MethodPost, URL := postMessageUrl, Body := body, ctx := none } := by
  unfold NewRequest
  rw [d.NewRequestErr_fixed]

/-- The transport is asked about the POST to the fixed endpoint with an empty
payload and the context of the caller. -/
lemma transport_eq (d : Deps Ctx Template Logger Alert Data)
    (n : Notifier Config Template Logger Ctx) (ctx : Ctx) :
    transport d n ctx = some (n.client.Do
      { Method := MethodPost, URL := postMessageUrl, Body := "", ctx := some ctx }) := by
  unfold transport
  rw [NewRequest_fixed d ""]
  rfl

/-- The run of `Notify` when the transport fails. -/
lemma Notify_of_transport_error (d : Deps Ctx Template Logger Alert Data)
    (n : Notifier Config Template Logger Ctx) (ctx : Ctx) (as : List Alert) (e : GoError)
    (_ : Rendered d n ctx as) (ht : transport d n ctx = some (.error e)) :
    Notify d n ctx as
      = ⟨true, some (d.RedactURL e),
          [Event.request { Method := MethodPost, URL := postMessageUrl, Body := "", ctx := some ctx }]⟩ := by
  rw [transport_eq] at ht
  simp only [Option.some.injEq] at ht
  unfold Notify
  simp only [renderStep, NewRequest_fixed d "", Request.WithContext, ht]

/-- The run of `Notify` when the transport returns a response: the request,
then what `classify` does, then the deferred drain. -/
lemma Notify_of_response (d : Deps Ctx Template Logger Alert Data)
    (n : Notifier Config Template Logger Ctx) (ctx : Ctx) (as : List Alert) (resp : Response)
    (_ : Rendered d n ctx as) (ht : transport d n ctx = some (.ok resp)) :
    Notify d n ctx as
      = ⟨(classify d resp : Run Ctx).retryable, (classify d resp : Run Ctx).err,
          Event.request { Method := MethodPost, URL := postMessageUrl, Body := "", ctx := some ctx }
            :: (classify d resp : Run Ctx).trace ++ [Event.drain resp]⟩ := by
  rw [transport_eq] at ht
  simp only [Option.some.injEq] at ht
  unfold Notify
  simp only [renderStep, NewRequest_fixed d "", Request.WithContext, ht]

/-- The events of `classify` are log lines only. -/
lemma classify_trace (d : Deps Ctx Template Logger Alert Data) (resp : Response) :
    requests (classify d resp : Run Ctx).trace = []
      ∧ drains (classify d resp : Run Ctx).trace = [] := by
  unfold classify
  split
  · exact ⟨rfl, rfl⟩
  · split
    · exact ⟨rfl, rfl⟩
    · split
      · exact ⟨rfl, rfl⟩
      · split <;> exact ⟨rfl, rfl⟩

lemma requests_append (xs ys : List (Event Ctx)) :
    requests (xs ++ ys) = requests xs ++ requests ys := by
  induction xs with
  | nil => rfl
  | cons x xs ih => cases x <;> simp [requests, ih]

lemma drains_append (xs ys : List (Event Ctx)) :
    drains (xs ++ ys) = drains xs ++ drains ys := by
  induction xs with
  | nil => rfl
  | cons x xs ih => cases x <;> simp [drains, ih]

/-- The outbound requests of a call: always the one POST to the fixed endpoint
with an empty payload. -/
lemma requests_Notify (d : Deps Ctx Template Logger Alert Data)
    (n : Notifier Config Template Logger Ctx) (ctx : Ctx) (as : List Alert) :
    requests (Notify d n ctx as).trace
      = [{ Method := MethodPost, URL := postMessageUrl, Body := "", ctx := some ctx }] := by
  have ht := transport_eq d n ctx
  cases hdo : n.client.Do
      { Method := MethodPost, URL := postMessageUrl, Body := "", ctx := some ctx } with
  | error e =>
    rw [hdo] at ht
    rw [Notify_of_transport_error d n ctx as e (rendered d n ctx as) ht]
    rfl
  | ok resp =>
    rw [hdo] at ht
    rw [Notify_of_response d n ctx as resp (rendered d n ctx as) ht]
    simp [requests, requests_append, (classify_trace d resp).1]

end Lemmas

/-! ## The claims -/

section Claims

variable {Config Template Logger Ctx Alert Data : Type}

/-- C1, as stated, fails: with a template that renders, a request that is
built and a server that answers 500, `Notify` returns `retryable = true`, not
`false`. -/
theorem C1_status_500_returns_retryable_true :
    Rendered (sampleDeps none) (sampleNotifier (.ok ⟨500, .bytes "oops"⟩)) () ["disk full"]
      ∧ transport (sampleDeps none) (sampleNotifier (.ok ⟨500, .bytes "oops"⟩)) ()
          = some (.ok ⟨500, .bytes "oops"⟩)
      ∧ (500 : Int) ≠ 200
      ∧ (Notify (sampleDeps none) (sampleNotifier (.ok ⟨500, .bytes "oops"⟩)) ()
          ["disk full"]).retryable ≠ false :=
  ⟨rfl, rfl, by decide, by decide⟩

/-- C1, amended: when the template renders, the request is built and the
transport returns a response whose status code is not 200, `Notify` returns
`retryable = true` together with the non-nil error whose text is
"response status code " followed by that code in decimal. -/
theorem C1_non_200_status_is_retryable_error (d : Deps Ctx Template Logger Alert Data)
    (n : Notifier Config Template Logger Ctx) (ctx : Ctx) (as : List Alert) (resp : Response)
    (hr : Rendered d n ctx as) (ht : transport d n ctx = some (.ok resp))
    (hs : resp.StatusCode ≠ 200) :
    (Notify d n ctx as).retryable = true
      ∧ (Notify d n ctx as).err
          = some ⟨"response status code " ++ toString resp.StatusCode⟩ := by
  rw [Notify_of_response d n ctx as resp hr ht]
  unfold classify
  simp [hs, statusCodeError]

/-- C1, amended, on a server that answers 500: the error reads "response status code 500" and the call is retryable. -/
theorem C1_non_200_status_is_retryable_error_witness :
    Rendered (sampleDeps none) (sampleNotifier (.ok ⟨500, .bytes "oops"⟩)) () ["disk full"]
      ∧ (500 : Int) ≠ 200
      ∧ (Notify (sampleDeps none) (sampleNotifier (.ok ⟨500, .bytes "oops"⟩)) ()
          ["disk full"]).retryable = true
      ∧ (Notify (sampleDeps none) (sampleNotifier (.ok ⟨500, .bytes "oops"⟩)) ()
          ["disk full"]).err = some ⟨"response status code 500"⟩ :=
  ⟨rfl, by decide,
    C1_non_200_status_is_retryable_error (sampleDeps none)
      (sampleNotifier (.ok ⟨500, .bytes "oops"⟩)) () ["disk full"] ⟨500, .bytes "oops"⟩
      rfl rfl (by decide)⟩

/-- C2: when the template renders and the request is built but the transport
returns an error (`transport` is defined only once the request is built),
`Notify` returns `retryable = true` and the error it returns is `RedactURL`
applied to the transport error. -/
theorem C2_transport_error_is_retryable_and_redacted (d : Deps Ctx Template Logger Alert Data)
    (n : Notifier Config Template Logger Ctx) (ctx : Ctx) (as : List Alert) (e : GoError)
    (hr : Rendered d n ctx as) (ht : transport d n ctx = some (.error e)) :
    (Notify d n ctx as).retryable = true
      ∧ (Notify d n ctx as).err = some (d.RedactURL e) := by
  rw [Notify_of_transport_error d n ctx as e hr ht]
  exact ⟨rfl, rfl⟩

/-- C2 on a refused connection whose error text carries the access token: the returned error is the redacted one. -/
theorem C2_transport_error_is_retryable_and_redacted_witness :
    (Notify (sampleDeps none)
        (sampleNotifier (.error ⟨"Post https://oapi.dingtalk.com/robot/send?access_token=s3cret: connection refused"⟩))
        () ["disk full"]).retryable = true
      ∧ (Notify (sampleDeps none)
        (sampleNotifier (.error ⟨"Post https://oapi.dingtalk.com/robot/send?access_token=s3cret: connection refused"⟩))
        () ["disk full"]).err = some ⟨"Post <redacted>: connection refused"⟩ :=
  C2_transport_error_is_retryable_and_redacted (sampleDeps none)
    (sampleNotifier (.error ⟨"Post https://oapi.dingtalk.com/robot/send?access_token=s3cret: connection refused"⟩))
    () ["disk full"]
    ⟨"Post https://oapi.dingtalk.com/robot/send?access_token=s3cret: connection refused"⟩
    rfl rfl

/-- C3, the code at the failing input: every template of this notifier fails
to render with "template: undefined variable", and still `Notify` does not
return that error: it sends the request and, the server answering 200 with
code 0, returns `(false, nil)`.  The function line 64 binds to `tmpl` is the
only thing that could render, and it is never called. -/
theorem C3_render_failure_goes_unnoticed :
    (∀ name : String,
        (renderStep (sampleDeps (some ⟨"template: undefined variable"⟩))
            (sampleNotifier (.ok ⟨200, .bytes "ok"⟩)) () ["disk full"]).1 name none
          = ("", some ⟨"template: undefined variable"⟩))
      ∧ Notify (sampleDeps (some ⟨"template: undefined variable"⟩))
          (sampleNotifier (.ok ⟨200, .bytes "ok"⟩)) () ["disk full"]
          = ⟨false, none,
              [Event.request ⟨"POST", "https://oapi.dingtalk.com/robot/send", "", some ()⟩,
                Event.log "response" "ok", Event.drain ⟨200, .bytes "ok"⟩]⟩ :=
  ⟨fun _ => rfl, by decide⟩

/-- C4: when the server answers 200 with a body that reads and parses to an
envelope whose code is 0, `Notify` returns `(false, nil)`, whatever the
envelope's error message is. -/
theorem C4_code_zero_returns_false_nil (d : Deps Ctx Template Logger Alert Data)
    (n : Notifier Config Template Logger Ctx) (ctx : Ctx) (as : List Alert) (resp : Response)
    (body errmsg : String)
    (hr : Rendered d n ctx as) (ht : transport d n ctx = some (.ok resp))
    (hs : resp.StatusCode = 200) (hread : ReadAll resp.Body = .ok body)
    (hparse : d.Unmarshal body = .ok ⟨0, errmsg⟩) :
    (Notify d n ctx as).retryable = false ∧ (Notify d n ctx as).err = none := by
  rw [Notify_of_response d n ctx as resp hr ht]
  unfold classify
  simp [hs, hread, hparse]

/-- C4 on an envelope with code 0 and the message "ok". -/
theorem C4_code_zero_returns_false_nil_witness :
    sampleUnmarshal "ok" = .ok ⟨0, "ok"⟩
      ∧ (Notify (sampleDeps none) (sampleNotifier (.ok ⟨200, .bytes "ok"⟩)) ()
          ["disk full"]).retryable = false
      ∧ (Notify (sampleDeps none) (sampleNotifier (.ok ⟨200, .bytes "ok"⟩)) ()
          ["disk full"]).err = none :=
  ⟨rfl,
    C4_code_zero_returns_false_nil (sampleDeps none) (sampleNotifier (.ok ⟨200, .bytes "ok"⟩))
      () ["disk full"] ⟨200, .bytes "ok"⟩ "ok" "ok" rfl rfl rfl rfl rfl⟩

/-- C5: when the server answers 200 with a body that reads and parses to an
envelope with a non-zero code `c` and error message `m`, `Notify` returns
`retryable = false` and a non-nil error whose text is exactly `m`. -/
theorem C5_nonzero_code_returns_envelope_message (d : Deps Ctx Template Logger Alert Data)
    (n : Notifier Config Template Logger Ctx) (ctx : Ctx) (as : List Alert) (resp : Response)
    (body : String) (c : Int) (m : String)
    (hr : Rendered d n ctx as) (ht : transport d n ctx = some (.ok resp))
    (hs : resp.StatusCode = 200) (hread : ReadAll resp.Body = .ok body)
    (hparse : d.Unmarshal body = .ok ⟨c, m⟩) (hc : c ≠ 0) :
    (Notify d n ctx as).retryable = false
      ∧ ∃ e : GoError, (Notify d n ctx as).err = some e ∧ e.text = m := by
  rw [Notify_of_response d n ctx as resp hr ht]
  unfold classify
  simp [hs, hread, hparse, hc, errorsNew]

/-- C5 on an envelope with code 1 and the message "token invalid". -/
theorem C5_nonzero_code_returns_envelope_message_witness :
    sampleUnmarshal "token invalid" = .ok ⟨1, "token invalid"⟩
      ∧ (1 : Int) ≠ 0
      ∧ (Notify (sampleDeps none) (sampleNotifier (.ok ⟨200, .bytes "token invalid"⟩)) ()
          ["disk full"]).retryable = false
      ∧ ∃ e : GoError,
          (Notify (sampleDeps none) (sampleNotifier (.ok ⟨200, .bytes "token invalid"⟩)) ()
            ["disk full"]).err = some e ∧ e.text = "token invalid" :=
  ⟨rfl, by decide,
    C5_nonzero_code_returns_envelope_message (sampleDeps none)
      (sampleNotifier (.ok ⟨200, .bytes "token invalid"⟩)) () ["disk full"]
      ⟨200, .bytes "token invalid"⟩ "token invalid" 1 "token invalid"
      rfl rfl rfl rfl rfl (by decide)⟩

/-- C6: when the server answers 200 but the body it sent does not parse as the
response envelope, `Notify` returns `retryable = true` together with the
non-nil parse error. -/
theorem C6_unparseable_body_is_retryable (d : Deps Ctx Template Logger Alert Data)
    (n : Notifier Config Template Logger Ctx) (ctx : Ctx) (as : List Alert) (resp : Response)
    (body : String) (e : GoError)
    (hr : Rendered d n ctx as) (ht : transport d n ctx = some (.ok resp))
    (hs : resp.StatusCode = 200) (hread : ReadAll resp.Body = .ok body)
    (hparse : d.Unmarshal body = .error e) :
    (Notify d n ctx as).retryable = true ∧ (Notify d n ctx as).err = some e := by
  rw [Notify_of_response d n ctx as resp hr ht]
  unfold classify
  simp [hs, hread, hparse]

/-- C6 on an HTML body sent with status 200. -/
theorem C6_unparseable_body_is_retryable_witness :
    sampleUnmarshal "<html>busy</html>" = .error ⟨"invalid character"⟩
      ∧ (Notify (sampleDeps none) (sampleNotifier (.ok ⟨200, .bytes "<html>busy</html>"⟩)) ()
          ["disk full"]).retryable = true
      ∧ (Notify (sampleDeps none) (sampleNotifier (.ok ⟨200, .bytes "<html>busy</html>"⟩)) ()
          ["disk full"]).err = some ⟨"invalid character"⟩ :=
  ⟨rfl,
    C6_unparseable_body_is_retryable (sampleDeps none)
      (sampleNotifier (.ok ⟨200, .bytes "<html>busy</html>"⟩)) () ["disk full"]
      ⟨200, .bytes "<html>busy</html>"⟩ "<html>busy</html>" ⟨"invalid character"⟩
      rfl rfl rfl rfl rfl⟩

/-- C7, the code at the failing input: the template, had it been rendered,
gives the message "[FIRING:1]" for the one alert, and the one request `Notify`
issues is the POST to the fixed endpoint with an empty payload, not that
message. -/
theorem C7_request_payload_is_empty_not_rendered_message :
    (renderStep (sampleDeps none) (sampleNotifier (.ok ⟨200, .bytes "ok"⟩)) ()
        ["disk full"]).1 "dingtalk.default.message" none = ("[FIRING:1]", none)
      ∧ requests (Notify (sampleDeps none) (sampleNotifier (.ok ⟨200, .bytes "ok"⟩)) ()
          ["disk full"]).trace
          = [⟨"POST", "https://oapi.dingtalk.com/robot/send", "", some ()⟩]
      ∧ "" ≠ "[FIRING:1]" :=
  ⟨by decide, by decide, by decide⟩

/-- C8: for every alert batch and every behaviour of the template engine, the
request builder, the transport and the server, a single call to `Notify`
issues exactly one outbound HTTP request. -/
theorem C8_exactly_one_request (d : Deps Ctx Template Logger Alert Data)
    (n : Notifier Config Template Logger Ctx) (ctx : Ctx) (as : List Alert) :
    (requests (Notify d n ctx as).trace).length = 1 := by
  rw [requests_Notify]
  rfl

/-- C9: when the transport returns a response, the trace of the call holds
exactly one drain, it is the drain of that response, and it is the last thing
the call does; this is so whatever the status, the body and the envelope turn
out to be. -/
theorem C9_response_drained_once_at_exit (d : Deps Ctx Template Logger Alert Data)
    (n : Notifier Config Template Logger Ctx) (ctx : Ctx) (as : List Alert) (resp : Response)
    (hr : Rendered d n ctx as) (ht : transport d n ctx = some (.ok resp)) :
    drains (Notify d n ctx as).trace = [resp]
      ∧ (Notify d n ctx as).trace.getLast? = some (Event.drain resp) := by
  rw [Notify_of_response d n ctx as resp hr ht]
  constructor
  · simp [drains, drains_append, (classify_trace d resp).2]
  · exact List.getLast?_concat (Event.request _ :: (classify d resp : Run Ctx).trace)

/-- C9 on a response with status 200 whose body breaks off while it is read. -/
theorem C9_response_drained_once_at_exit_witness :
    drains (Notify (sampleDeps none) (sampleNotifier (.ok ⟨200, .broken ⟨"unexpected EOF"⟩⟩)) ()
        ["disk full"]).trace = [⟨200, .broken ⟨"unexpected EOF"⟩⟩]
      ∧ (Notify (sampleDeps none) (sampleNotifier (.ok ⟨200, .broken ⟨"unexpected EOF"⟩⟩)) ()
        ["disk full"]).trace.getLast? = some (Event.drain ⟨200, .broken ⟨"unexpected EOF"⟩⟩) :=
  C9_response_drained_once_at_exit (sampleDeps none)
    (sampleNotifier (.ok ⟨200, .broken ⟨"unexpected EOF"⟩⟩)) () ["disk full"]
    ⟨200, .broken ⟨"unexpected EOF"⟩⟩ rfl rfl

end Claims

end Dingtalk
